import Mathlib

/-!
Shallow embedding of the core math, shading and scene-rendering kernels of
the fauxgl-gltf software renderer, together with theorems settling
specification claims about them.  Go float64 arithmetic is idealised as
real arithmetic; Go slices become lists, nil-able pointers become Option.
Source references name the repository files the definitions are taken from.
-/

namespace Fauxgl

noncomputable section

/-- Color is linear RGBA.  Modelled from the spec: the repository's color
type is not among the provided source files; the spec states Color is
linear RGBA with component-wise arithmetic, `Discard` is the sentinel with
all components equal to -1, and `Alpha` replaces the alpha component. -/
structure Color where
  R : ℝ
  G : ℝ
  B : ℝ
  A : ℝ

/-- Component-wise color addition.  Modelled from the spec: color
arithmetic is component-wise. -/
def Color.Add (a b : Color) : Color :=
  ⟨a.R + b.R, a.G + b.G, a.B + b.B, a.A + b.A⟩

/-- Component-wise color multiplication.  Modelled from the spec. -/
def Color.Mul (a b : Color) : Color :=
  ⟨a.R * b.R, a.G * b.G, a.B * b.B, a.A * b.A⟩

/-- Scalar color multiplication.  Modelled from the spec. -/
def Color.MulScalar (a : Color) (b : ℝ) : Color :=
  ⟨a.R * b, a.G * b, a.B * b, a.A * b⟩

/-- Component-wise linear interpolation of colors.  Modelled from the
spec: color arithmetic is component-wise. -/
def Color.Lerp (a b : Color) (t : ℝ) : Color :=
  ⟨a.R + (b.R - a.R) * t, a.G + (b.G - a.G) * t,
   a.B + (b.B - a.B) * t, a.A + (b.A - a.A) * t⟩

/-- Discard sentinel color.  Modelled from the spec: all components -1. -/
def Discard : Color := ⟨-1, -1, -1, -1⟩

/-- Vector is the 3-component float vector of src/ktx2.go. -/
structure Vector where
  X : ℝ
  Y : ℝ
  Z : ℝ

/-- VectorW is the homogeneous 4-component vector of src/unnamed/part_000. -/
structure VectorW where
  X : ℝ
  Y : ℝ
  Z : ℝ
  W : ℝ

/-- SIMDVector4 from src/unnamed/part_000, a Go `[4]float64`; field `si`
is the Go array slot `sv[i]`. -/
structure SIMDVector4 where
  s0 : ℝ
  s1 : ℝ
  s2 : ℝ
  s3 : ℝ

/-- NewSIMDVector4FromVector (src/unnamed/part_000 lines 50-53): the W
slot is set to 1.0. -/
def NewSIMDVector4FromVector (v : Vector) : SIMDVector4 :=
  ⟨v.X, v.Y, v.Z, 1⟩

/-- ToVector (src/unnamed/part_000 lines 56-58). -/
def SIMDVector4.ToVector (sv : SIMDVector4) : Vector :=
  ⟨sv.s0, sv.s1, sv.s2⟩

/-- SIMDVector4.Add (src/unnamed/part_000). -/
def SIMDVector4.Add (sv other : SIMDVector4) : SIMDVector4 :=
  ⟨sv.s0 + other.s0, sv.s1 + other.s1, sv.s2 + other.s2, sv.s3 + other.s3⟩

/-- SIMDVector4.Sub (src/unnamed/part_000). -/
def SIMDVector4.Sub (sv other : SIMDVector4) : SIMDVector4 :=
  ⟨sv.s0 - other.s0, sv.s1 - other.s1, sv.s2 - other.s2, sv.s3 - other.s3⟩

/-- SIMDVector4.MulScalar (src/unnamed/part_000). -/
def SIMDVector4.MulScalar (sv : SIMDVector4) (scalar : ℝ) : SIMDVector4 :=
  ⟨sv.s0 * scalar, sv.s1 * scalar, sv.s2 * scalar, sv.s3 * scalar⟩

/-- SIMDVector4.DivScalar (src/unnamed/part_000 lines 92-102): returns the
zero vector when the scalar is zero. -/
def SIMDVector4.DivScalar (sv : SIMDVector4) (scalar : ℝ) : SIMDVector4 :=
  if scalar = 0 then ⟨0, 0, 0, 0⟩
  else ⟨sv.s0 / scalar, sv.s1 / scalar, sv.s2 / scalar, sv.s3 / scalar⟩

/-- SIMDVector4.Dot (src/unnamed/part_000 lines 105-107): full 4-slot dot. -/
def SIMDVector4.Dot (sv other : SIMDVector4) : ℝ :=
  sv.s0 * other.s0 + sv.s1 * other.s1 + sv.s2 * other.s2 + sv.s3 * other.s3

/-- SIMDVector4.Length (src/unnamed/part_000 lines 110-112): square root
of the sum of squares of all four slots. -/
def SIMDVector4.Length (sv : SIMDVector4) : ℝ :=
  Real.sqrt (sv.s0 * sv.s0 + sv.s1 * sv.s1 + sv.s2 * sv.s2 + sv.s3 * sv.s3)

/-- SIMDVector4.Normalize (src/unnamed/part_000 lines 115-121). -/
def SIMDVector4.Normalize (sv : SIMDVector4) : SIMDVector4 :=
  let length := sv.Length
  if length = 0 then ⟨0, 0, 0, 0⟩ else sv.DivScalar length

/-- SIMDVector4.Cross (src/unnamed/part_000 lines 124-131). -/
def SIMDVector4.Cross (sv other : SIMDVector4) : SIMDVector4 :=
  ⟨sv.s1 * other.s2 - sv.s2 * other.s1,
   sv.s2 * other.s0 - sv.s0 * other.s2,
   sv.s0 * other.s1 - sv.s1 * other.s0, 0⟩

/-- SIMDVector4.Min (src/unnamed/part_000 lines 134-141). -/
def SIMDVector4.Min (sv other : SIMDVector4) : SIMDVector4 :=
  ⟨min sv.s0 other.s0, min sv.s1 other.s1, min sv.s2 other.s2, min sv.s3 other.s3⟩

/-- SIMDVector4.Max (src/unnamed/part_000 lines 144-151). -/
def SIMDVector4.Max (sv other : SIMDVector4) : SIMDVector4 :=
  ⟨max sv.s0 other.s0, max sv.s1 other.s1, max sv.s2 other.s2, max sv.s3 other.s3⟩

/-- SIMDVectorDot (src/unnamed/part_000 lines 364-369): converts both
arguments with W slot 1 and takes the 4-slot dot. -/
def SIMDVectorDot (a b : Vector) : ℝ :=
  (NewSIMDVector4FromVector a).Dot (NewSIMDVector4FromVector b)

/-- SIMDVectorCross (src/unnamed/part_000 lines 371-376). -/
def SIMDVectorCross (a b : Vector) : Vector :=
  ((NewSIMDVector4FromVector a).Cross (NewSIMDVector4FromVector b)).ToVector

/-- SIMDVectorDistance (src/unnamed/part_000 lines 356-362). -/
def SIMDVectorDistance (a b : Vector) : ℝ :=
  ((NewSIMDVector4FromVector a).Sub (NewSIMDVector4FromVector b)).Length

/-- Vector.Length (src/ktx2.go lines 775-779): routed through the SIMD
conversion, so the homogeneous W slot 1 participates in the sum. -/
def Vector.Length (a : Vector) : ℝ :=
  (NewSIMDVector4FromVector a).Length

/-- Vector.LengthSquared (src/ktx2.go lines 796-798): the plain
3-component sum of squares. -/
def Vector.LengthSquared (a : Vector) : ℝ :=
  a.X * a.X + a.Y * a.Y + a.Z * a.Z

/-- Vector.Dot (src/ktx2.go lines 816-819): delegates to SIMDVectorDot. -/
def Vector.Dot (a b : Vector) : ℝ :=
  SIMDVectorDot a b

/-- Vector.Cross (src/ktx2.go lines 821-824). -/
def Vector.Cross (a b : Vector) : Vector :=
  SIMDVectorCross a b

/-- Vector.Normalize (src/ktx2.go lines 826-830): routed through the SIMD
conversion with W slot 1. -/
def Vector.Normalize (a : Vector) : Vector :=
  ((NewSIMDVector4FromVector a).Normalize).ToVector

/-- Vector.Distance (src/ktx2.go lines 791-794). -/
def Vector.Distance (a b : Vector) : ℝ :=
  SIMDVectorDistance a b

/-- Vector.Negate (src/ktx2.go lines 832-834). -/
def Vector.Negate (a : Vector) : Vector :=
  ⟨-a.X, -a.Y, -a.Z⟩

/-- Vector.Add (src/ktx2.go lines 840-843): the Go code routes a
singleton batch through SIMDAddVectors, which adds the converted vectors
slot-wise and drops the W slot again. -/
def Vector.Add (a b : Vector) : Vector :=
  ((NewSIMDVector4FromVector a).Add (NewSIMDVector4FromVector b)).ToVector

/-- Vector.Sub (src/ktx2.go lines 845-850). -/
def Vector.Sub (a b : Vector) : Vector :=
  ((NewSIMDVector4FromVector a).Sub (NewSIMDVector4FromVector b)).ToVector

/-- Vector.Mul (src/ktx2.go lines 852-854): component-wise product. -/
def Vector.Mul (a b : Vector) : Vector :=
  ⟨a.X * b.X, a.Y * b.Y, a.Z * b.Z⟩

/-- Vector.MulScalar (src/ktx2.go lines 868-871): singleton batch through
SIMDMulScalarVectors. -/
def Vector.MulScalar (a : Vector) (b : ℝ) : Vector :=
  ((NewSIMDVector4FromVector a).MulScalar b).ToVector

/-- Vector.DivScalar (src/ktx2.go lines 873-875). -/
def Vector.DivScalar (a : Vector) (b : ℝ) : Vector :=
  ⟨a.X / b, a.Y / b, a.Z / b⟩

/-- Vector.Min (src/ktx2.go lines 881-886). -/
def Vector.Min (a b : Vector) : Vector :=
  ((NewSIMDVector4FromVector a).Min (NewSIMDVector4FromVector b)).ToVector

/-- Vector.Max (src/ktx2.go lines 888-893). -/
def Vector.Max (a b : Vector) : Vector :=
  ((NewSIMDVector4FromVector a).Max (NewSIMDVector4FromVector b)).ToVector

/-- Vector.Lerp (src/ktx2.go lines 804-810). -/
def Vector.Lerp (a b : Vector) (t : ℝ) : Vector :=
  ((NewSIMDVector4FromVector a).Add
    (((NewSIMDVector4FromVector b).Sub (NewSIMDVector4FromVector a)).MulScalar t)).ToVector

/-- Matrix is the row-major 4x4 matrix of src/matrix.go. -/
structure Matrix where
  X00 : ℝ
  X01 : ℝ
  X02 : ℝ
  X03 : ℝ
  X10 : ℝ
  X11 : ℝ
  X12 : ℝ
  X13 : ℝ
  X20 : ℝ
  X21 : ℝ
  X22 : ℝ
  X23 : ℝ
  X30 : ℝ
  X31 : ℝ
  X32 : ℝ
  X33 : ℝ

/-- Identity (src/matrix.go lines 14-20). -/
def Identity : Matrix :=
  ⟨1, 0, 0, 0, 0, 1, 0, 0, 0, 0, 1, 0, 0, 0, 0, 1⟩

/-- Matrix.Mul (src/matrix.go lines 194-213). -/
def Matrix.Mul (a b : Matrix) : Matrix :=
  ⟨a.X00 * b.X00 + a.X01 * b.X10 + a.X02 * b.X20 + a.X03 * b.X30,
   a.X00 * b.X01 + a.X01 * b.X11 + a.X02 * b.X21 + a.X03 * b.X31,
   a.X00 * b.X02 + a.X01 * b.X12 + a.X02 * b.X22 + a.X03 * b.X32,
   a.X00 * b.X03 + a.X01 * b.X13 + a.X02 * b.X23 + a.X03 * b.X33,
   a.X10 * b.X00 + a.X11 * b.X10 + a.X12 * b.X20 + a.X13 * b.X30,
   a.X10 * b.X01 + a.X11 * b.X11 + a.X12 * b.X21 + a.X13 * b.X31,
   a.X10 * b.X02 + a.X11 * b.X12 + a.X12 * b.X22 + a.X13 * b.X32,
   a.X10 * b.X03 + a.X11 * b.X13 + a.X12 * b.X23 + a.X13 * b.X33,
   a.X20 * b.X00 + a.X21 * b.X10 + a.X22 * b.X20 + a.X23 * b.X30,
   a.X20 * b.X01 + a.X21 * b.X11 + a.X22 * b.X21 + a.X23 * b.X31,
   a.X20 * b.X02 + a.X21 * b.X12 + a.X22 * b.X22 + a.X23 * b.X32,
   a.X20 * b.X03 + a.X21 * b.X13 + a.X22 * b.X23 + a.X23 * b.X33,
   a.X30 * b.X00 + a.X31 * b.X10 + a.X32 * b.X20 + a.X33 * b.X30,
   a.X30 * b.X01 + a.X31 * b.X11 + a.X32 * b.X21 + a.X33 * b.X31,
   a.X30 * b.X02 + a.X31 * b.X12 + a.X32 * b.X22 + a.X33 * b.X32,
   a.X30 * b.X03 + a.X31 * b.X13 + a.X32 * b.X23 + a.X33 * b.X33⟩

/-- SIMDMat4 from src/unnamed/part_000, a Go `[16]float64` in row-major
order; field `mi` is the Go array slot `m[i]`. -/
structure SIMDMat4 where
  m0 : ℝ
  m1 : ℝ
  m2 : ℝ
  m3 : ℝ
  m4 : ℝ
  m5 : ℝ
  m6 : ℝ
  m7 : ℝ
  m8 : ℝ
  m9 : ℝ
  m10 : ℝ
  m11 : ℝ
  m12 : ℝ
  m13 : ℝ
  m14 : ℝ
  m15 : ℝ

/-- NewSIMDMat4 (src/unnamed/part_000 lines 200-211). -/
def NewSIMDMat4 (a00 a01 a02 a03 a10 a11 a12 a13 a20 a21 a22 a23 a30 a31 a32 a33 : ℝ) :
    SIMDMat4 :=
  ⟨a00, a01, a02, a03, a10, a11, a12, a13, a20, a21, a22, a23, a30, a31, a32, a33⟩

/-- MulPositionSIMD (src/unnamed/part_000 lines 239-246). -/
def SIMDMat4.MulPositionSIMD (m : SIMDMat4) (v : SIMDVector4) : SIMDVector4 :=
  ⟨m.m0 * v.s0 + m.m1 * v.s1 + m.m2 * v.s2 + m.m3 * v.s3,
   m.m4 * v.s0 + m.m5 * v.s1 + m.m6 * v.s2 + m.m7 * v.s3,
   m.m8 * v.s0 + m.m9 * v.s1 + m.m10 * v.s2 + m.m11 * v.s3,
   m.m12 * v.s0 + m.m13 * v.s1 + m.m14 * v.s2 + m.m15 * v.s3⟩

/-- Matrix.MulPosition (src/matrix.go lines 216-221): applies the upper
three rows to (X, Y, Z, 1) and returns them without dividing by w. -/
def Matrix.MulPosition (a : Matrix) (b : Vector) : Vector :=
  ⟨a.X00 * b.X + a.X01 * b.Y + a.X02 * b.Z + a.X03,
   a.X10 * b.X + a.X11 * b.Y + a.X12 * b.Z + a.X13,
   a.X20 * b.X + a.X21 * b.Y + a.X22 * b.Z + a.X23⟩

/-- Matrix.MulPositionW (src/matrix.go lines 224-235): the full
homogeneous product through the SIMD kernel, with input w = 1. -/
def Matrix.MulPositionW (a : Matrix) (b : Vector) : VectorW :=
  let simdMatrix := NewSIMDMat4 a.X00 a.X01 a.X02 a.X03 a.X10 a.X11 a.X12 a.X13
    a.X20 a.X21 a.X22 a.X23 a.X30 a.X31 a.X32 a.X33
  let simdVector := NewSIMDVector4FromVector b
  let result := simdMatrix.MulPositionSIMD simdVector
  ⟨result.s0, result.s1, result.s2, result.s3⟩

/-- Matrix.Determinant (src/matrix.go lines 282-295). -/
def Matrix.Determinant (a : Matrix) : ℝ :=
  a.X00 * a.X11 * a.X22 * a.X33 - a.X00 * a.X11 * a.X23 * a.X32 +
  a.X00 * a.X12 * a.X23 * a.X31 - a.X00 * a.X12 * a.X21 * a.X33 +
  a.X00 * a.X13 * a.X21 * a.X32 - a.X00 * a.X13 * a.X22 * a.X31 -
  a.X01 * a.X12 * a.X23 * a.X30 + a.X01 * a.X12 * a.X20 * a.X33 -
  a.X01 * a.X13 * a.X20 * a.X32 + a.X01 * a.X13 * a.X22 * a.X30 -
  a.X01 * a.X10 * a.X22 * a.X33 + a.X01 * a.X10 * a.X23 * a.X32 +
  a.X02 * a.X13 * a.X20 * a.X31 - a.X02 * a.X13 * a.X21 * a.X30 +
  a.X02 * a.X10 * a.X21 * a.X33 - a.X02 * a.X10 * a.X23 * a.X31 +
  a.X02 * a.X11 * a.X23 * a.X30 - a.X02 * a.X11 * a.X20 * a.X33 -
  a.X03 * a.X10 * a.X21 * a.X32 + a.X03 * a.X10 * a.X22 * a.X31 -
  a.X03 * a.X11 * a.X22 * a.X30 + a.X03 * a.X11 * a.X20 * a.X32 -
  a.X03 * a.X12 * a.X20 * a.X31 + a.X03 * a.X12 * a.X21 * a.X30

/-- Matrix.Inverse (src/matrix.go lines 298-321): returns the identity
when the determinant is zero, otherwise the cofactor inverse. -/
def Matrix.Inverse (a : Matrix) : Matrix :=
  let d := a.Determinant
  if d = 0 then Identity
  else
    ⟨(a.X12 * a.X23 * a.X31 - a.X13 * a.X22 * a.X31 + a.X13 * a.X21 * a.X32 - a.X11 * a.X23 * a.X32 - a.X12 * a.X21 * a.X33 + a.X11 * a.X22 * a.X33) / d,
     (a.X03 * a.X22 * a.X31 - a.X02 * a.X23 * a.X31 - a.X03 * a.X21 * a.X32 + a.X01 * a.X23 * a.X32 + a.X02 * a.X21 * a.X33 - a.X01 * a.X22 * a.X33) / d,
     (a.X02 * a.X13 * a.X31 - a.X03 * a.X12 * a.X31 + a.X03 * a.X11 * a.X32 - a.X01 * a.X13 * a.X32 - a.X02 * a.X11 * a.X33 + a.X01 * a.X12 * a.X33) / d,
     (a.X03 * a.X12 * a.X21 - a.X02 * a.X13 * a.X21 - a.X03 * a.X11 * a.X22 + a.X01 * a.X13 * a.X22 + a.X02 * a.X11 * a.X23 - a.X01 * a.X12 * a.X23) / d,
     (a.X13 * a.X22 * a.X30 - a.X12 * a.X23 * a.X30 - a.X13 * a.X20 * a.X32 + a.X10 * a.X23 * a.X32 + a.X12 * a.X20 * a.X33 - a.X10 * a.X22 * a.X33) / d,
     (a.X02 * a.X23 * a.X30 - a.X03 * a.X22 * a.X30 + a.X03 * a.X20 * a.X32 - a.X00 * a.X23 * a.X32 - a.X02 * a.X20 * a.X33 + a.X00 * a.X22 * a.X33) / d,
     (a.X03 * a.X12 * a.X30 - a.X02 * a.X13 * a.X30 - a.X03 * a.X10 * a.X32 + a.X00 * a.X13 * a.X32 + a.X02 * a.X10 * a.X33 - a.X00 * a.X12 * a.X33) / d,
     (a.X02 * a.X13 * a.X20 - a.X03 * a.X12 * a.X20 + a.X03 * a.X10 * a.X22 - a.X00 * a.X13 * a.X22 - a.X02 * a.X10 * a.X23 + a.X00 * a.X12 * a.X23) / d,
     (a.X11 * a.X23 * a.X30 - a.X13 * a.X21 * a.X30 + a.X13 * a.X20 * a.X31 - a.X10 * a.X23 * a.X31 - a.X11 * a.X20 * a.X33 + a.X10 * a.X21 * a.X33) / d,
     (a.X03 * a.X21 * a.X30 - a.X01 * a.X23 * a.X30 - a.X03 * a.X20 * a.X31 + a.X00 * a.X23 * a.X31 + a.X01 * a.X20 * a.X33 - a.X00 * a.X21 * a.X33) / d,
     (a.X01 * a.X13 * a.X30 - a.X03 * a.X11 * a.X30 + a.X03 * a.X10 * a.X31 - a.X00 * a.X13 * a.X31 - a.X01 * a.X10 * a.X33 + a.X00 * a.X11 * a.X33) / d,
     (a.X03 * a.X11 * a.X20 - a.X01 * a.X13 * a.X20 - a.X03 * a.X10 * a.X21 + a.X00 * a.X13 * a.X21 + a.X01 * a.X10 * a.X23 - a.X00 * a.X11 * a.X23) / d,
     (a.X12 * a.X21 * a.X30 - a.X11 * a.X22 * a.X30 - a.X12 * a.X20 * a.X31 + a.X10 * a.X22 * a.X31 + a.X11 * a.X20 * a.X32 - a.X10 * a.X21 * a.X32) / d,
     (a.X01 * a.X22 * a.X30 - a.X02 * a.X21 * a.X30 + a.X02 * a.X20 * a.X31 - a.X00 * a.X22 * a.X31 - a.X01 * a.X20 * a.X32 + a.X00 * a.X21 * a.X32) / d,
     (a.X02 * a.X11 * a.X30 - a.X01 * a.X12 * a.X30 - a.X02 * a.X10 * a.X31 + a.X00 * a.X12 * a.X31 + a.X01 * a.X10 * a.X32 - a.X00 * a.X11 * a.X32) / d,
     (a.X01 * a.X12 * a.X20 - a.X02 * a.X11 * a.X20 + a.X02 * a.X10 * a.X21 - a.X00 * a.X12 * a.X21 - a.X01 * a.X10 * a.X22 + a.X00 * a.X11 * a.X22) / d⟩

/-- Box is the axis-aligned bounding box of src/unnamed/part_005. -/
structure Box where
  Min : Vector
  Max : Vector

/-- EmptyBox (src/unnamed/part_005 line 781): the Go zero value `Box{}`. -/
def EmptyBox : Box := ⟨⟨0, 0, 0⟩, ⟨0, 0, 0⟩⟩

/-- Box.Extend (src/unnamed/part_005 lines 799-804). -/
def Box.Extend (a b : Box) : Box :=
  haveI : Decidable (a = EmptyBox) := Classical.dec _
  if a = EmptyBox then b else ⟨a.Min.Min b.Min, a.Max.Max b.Max⟩

/-- Box.Contains (src/unnamed/part_005 lines 814-818); the Go boolean is
modelled as a proposition. -/
def Box.Contains (a : Box) (b : Vector) : Prop :=
  a.Min.X ≤ b.X ∧ a.Max.X ≥ b.X ∧
  a.Min.Y ≤ b.Y ∧ a.Max.Y ≥ b.Y ∧
  a.Min.Z ≤ b.Z ∧ a.Max.Z ≥ b.Z

/-- Matrix.MulBox (src/matrix.go lines 252-270). -/
def Matrix.MulBox (a : Matrix) (box : Box) : Box :=
  let r : Vector := ⟨a.X00, a.X10, a.X20⟩
  let u : Vector := ⟨a.X01, a.X11, a.X21⟩
  let b : Vector := ⟨a.X02, a.X12, a.X22⟩
  let t : Vector := ⟨a.X03, a.X13, a.X23⟩
  let xa := r.MulScalar box.Min.X
  let xb := r.MulScalar box.Max.X
  let ya := u.MulScalar box.Min.Y
  let yb := u.MulScalar box.Max.Y
  let za := b.MulScalar box.Min.Z
  let zb := b.MulScalar box.Max.Z
  let xlo := xa.Min xb
  let xhi := xa.Max xb
  let ylo := ya.Min yb
  let yhi := ya.Max yb
  let zlo := za.Min zb
  let zhi := za.Max zb
  ⟨((xlo.Add ylo).Add zlo).Add t, ((xhi.Add yhi).Add zhi).Add t⟩

/-- Plane (src/shader.go lines 595-598). -/
structure Plane where
  Normal : Vector
  Distance : ℝ

/-- ViewFrustum (src/shader.go lines 590-592): the Go `[6]Plane` array is
modelled as a function from Fin 6. -/
structure ViewFrustum where
  Planes : Fin 6 → Plane

/-- NewViewFrustumFromMatrix (src/shader.go lines 601-649): extracts six
planes (left, right, bottom, top, near, far) from a projection-view
matrix and divides each by the (SIMD, W-polluted) length of its normal. -/
def NewViewFrustumFromMatrix (matrix : Matrix) : ViewFrustum :=
  let raw : Fin 6 → Plane :=
    ![⟨⟨matrix.X03 + matrix.X00, matrix.X13 + matrix.X10, matrix.X23 + matrix.X20⟩,
       matrix.X33 + matrix.X30⟩,
      ⟨⟨matrix.X03 - matrix.X00, matrix.X13 - matrix.X10, matrix.X23 - matrix.X20⟩,
       matrix.X33 - matrix.X30⟩,
      ⟨⟨matrix.X03 + matrix.X01, matrix.X13 + matrix.X11, matrix.X23 + matrix.X21⟩,
       matrix.X33 + matrix.X31⟩,
      ⟨⟨matrix.X03 - matrix.X01, matrix.X13 - matrix.X11, matrix.X23 - matrix.X21⟩,
       matrix.X33 - matrix.X31⟩,
      ⟨⟨matrix.X02, matrix.X12, matrix.X22⟩, matrix.X32⟩,
      ⟨⟨matrix.X03 - matrix.X02, matrix.X13 - matrix.X12, matrix.X23 - matrix.X22⟩,
       matrix.X33 - matrix.X32⟩]
  ⟨fun i =>
    let length := (raw i).Normal.Length
    ⟨(raw i).Normal.DivScalar length, (raw i).Distance / length⟩⟩

/-- ViewFrustum.IntersectsBox (src/shader.go lines 652-692): for each
plane, take the box corner furthest along the plane normal (the positive
vertex) and report false when it is behind the plane.  The Go loop also
computes a negative vertex that it never uses; it is omitted here.  The
dot product is the repository's own W-polluted `Vector.Dot`. -/
def ViewFrustum.IntersectsBox (f : ViewFrustum) (box : Box) : Bool :=
  (List.finRange 6).all fun i =>
    let plane := f.Planes i
    let positive : Vector :=
      ⟨if 0 ≤ plane.Normal.X then box.Max.X else box.Min.X,
       if 0 ≤ plane.Normal.Y then box.Max.Y else box.Min.Y,
       if 0 ≤ plane.Normal.Z then box.Max.Z else box.Min.Z⟩
    !(decide (positive.Dot plane.Normal + plane.Distance < 0))

/-- Frustum (src/matrix.go lines 77-83). -/
def Frustum (l r b t n f : ℝ) : Matrix :=
  ⟨2 * n / (r - l), 0, (r + l) / (r - l), 0,
   0, 2 * n / (t - b), (t + b) / (t - b), 0,
   0, 0, -(f + n) / (f - n), -2 * f * n / (f - n),
   0, 0, -1, 0⟩

/-- Orthographic (src/matrix.go lines 86-92). -/
def Orthographic (l r b t n f : ℝ) : Matrix :=
  ⟨2 / (r - l), 0, 0, -(r + l) / (r - l),
   0, 2 / (t - b), 0, -(t + b) / (t - b),
   0, 0, -2 / (f - n), -(f + n) / (f - n),
   0, 0, 0, 1⟩

/-- Perspective (src/matrix.go lines 95-99). -/
def Perspective (fovy aspect near far : ℝ) : Matrix :=
  let ymax := near * Real.tan (fovy * Real.pi / 360)
  let xmax := ymax * aspect
  Frustum (-xmax) xmax (-ymax) ymax near far

/-- LookAt (src/matrix.go lines 102-112); note that the `Dot` calls go
through the repository's W-polluted dot product. -/
def LookAt (eye center up : Vector) : Matrix :=
  let z := (eye.Sub center).Normalize
  let x := (up.Cross z).Normalize
  let y := z.Cross x
  ⟨x.X, x.Y, x.Z, -(x.Dot eye),
   y.X, y.Y, y.Z, -(y.Dot eye),
   z.X, z.Y, z.Z, -(z.Dot eye),
   0, 0, 0, 1⟩

/-- ProjectionType (src/shader.go lines 324-331).  The Go type is an int
with two named values; only those two values are representable here, so
the unreachable default branch of GetProjectionMatrix is dropped. -/
inductive ProjectionType where
  | PerspectiveProjection
  | OrthographicProjection
deriving DecidableEq

/-- Camera (src/shader.go lines 310-321); the Name field is omitted and
the Go field `ProjectionType` is renamed `Projection` to avoid clashing
with its type. -/
structure Camera where
  Position : Vector
  Target : Vector
  Up : Vector
  FOV : ℝ
  AspectRatio : ℝ
  NearPlane : ℝ
  FarPlane : ℝ
  Projection : ProjectionType
  OrthoSize : ℝ

/-- Camera.GetViewMatrix (src/shader.go lines 364-366). -/
def Camera.GetViewMatrix (camera : Camera) : Matrix :=
  LookAt camera.Position camera.Target camera.Up

/-- Camera.GetProjectionMatrix (src/shader.go lines 369-380). -/
def Camera.GetProjectionMatrix (camera : Camera) : Matrix :=
  match camera.Projection with
  | .PerspectiveProjection =>
      Perspective camera.FOV camera.AspectRatio camera.NearPlane camera.FarPlane
  | .OrthographicProjection =>
      let width := camera.OrthoSize * camera.AspectRatio
      let height := camera.OrthoSize
      Orthographic (-width / 2) (width / 2) (-height / 2) (height / 2)
        camera.NearPlane camera.FarPlane

/-- TextureWrap (src/advanced_texture.go lines 45-54). -/
inductive TextureWrap where
  | WrapRepeat
  | WrapClamp
  | WrapMirror
deriving DecidableEq

/-- TextureFilter (src/advanced_texture.go lines 57-66). -/
inductive TextureFilter where
  | FilterNearest
  | FilterLinear
  | FilterMipmap
deriving DecidableEq

/-- Texture is the Go interface of src/advanced_texture.go lines 13-16:
its single method BilinearSample maps (u, v) to a Color, so a texture
value is modelled as that function. -/
def Texture : Type := ℝ → ℝ → Color

/-- AdvancedTexture (src/advanced_texture.go lines 69-80).  The Image
field is the pixel lookup `MakeColor(t.Image.At(x, y))`; the Type and
MipLevels fields are omitted (the modelled sampling path falls back to
bilinear for mipmaps and never reads Type). -/
structure AdvancedTexture where
  Image : ℤ → ℤ → Color
  Width : ℤ
  Height : ℤ
  WrapS : TextureWrap
  WrapT : TextureWrap
  MinFilter : TextureFilter
  MagFilter : TextureFilter
  Transform : Matrix

/-- ClampInt clamps an integer to a range.  Modelled from the spec: the
bilinear sampler reads the four surrounding texels with clamped indices. -/
def ClampInt (x lo hi : ℤ) : ℤ :=
  if x < lo then lo else if x > hi then hi else x

/-- Go conversion `int(x)` for a float64 x: truncation toward zero. -/
def goInt (x : ℝ) : ℤ :=
  if 0 ≤ x then ⌊x⌋ else -⌊-x⌋

/-- AdvancedTexture.wrapCoordinate (src/advanced_texture.go lines
159-175).  Repeat subtracts the floor; Clamp clamps to [0,1]; Mirror
takes the fractional part and reflects it when `int(floor(2c)) % 2 = 1`
(Go's % is truncated remainder, Int.tmod).  The Go default branch equals
the Repeat branch and is unreachable for the three named wrap values. -/
def AdvancedTexture.wrapCoordinate (_t : AdvancedTexture) (coord : ℝ)
    (wrap : TextureWrap) : ℝ :=
  match wrap with
  | .WrapRepeat => coord - ↑⌊coord⌋
  | .WrapClamp => max 0 (min 1 coord)
  | .WrapMirror =>
      let c := coord - ↑⌊coord⌋
      if Int.tmod ⌊c * 2⌋ 2 = 1 then 1 - c else c

/-- AdvancedTexture.sampleNearest (src/advanced_texture.go lines 178-184). -/
def AdvancedTexture.sampleNearest (t : AdvancedTexture) (u v : ℝ) : Color :=
  let x := ClampInt (goInt (u * ((t.Width - 1 : ℤ) : ℝ) + 0.5)) 0 (t.Width - 1)
  let y := ClampInt (goInt (v * ((t.Height - 1 : ℤ) : ℝ) + 0.5)) 0 (t.Height - 1)
  t.Image x y

/-- AdvancedTexture.sampleBilinear (src/advanced_texture.go lines 187-216). -/
def AdvancedTexture.sampleBilinear (t : AdvancedTexture) (u v : ℝ) : Color :=
  let x := u * ((t.Width - 1 : ℤ) : ℝ)
  let y := v * ((t.Height - 1 : ℤ) : ℝ)
  let x0 := ClampInt (goInt x) 0 (t.Width - 1)
  let y0 := ClampInt (goInt y) 0 (t.Height - 1)
  let x1 := ClampInt (goInt x + 1) 0 (t.Width - 1)
  let y1 := ClampInt (goInt y + 1) 0 (t.Height - 1)
  let fx := x - ((goInt x : ℤ) : ℝ)
  let fy := y - ((goInt y : ℤ) : ℝ)
  let c00 := t.Image x0 y0
  let c01 := t.Image x0 y1
  let c10 := t.Image x1 y0
  let c11 := t.Image x1 y1
  let top := c00.Lerp c10 fx
  let bottom := c01.Lerp c11 fx
  top.Lerp bottom fy

/-- AdvancedTexture.SampleWithFilter (src/advanced_texture.go lines
132-157): applies the texture-coordinate transform, wraps each axis,
flips v, and dispatches on the filter (mipmap falls back to bilinear, as
does the Go default branch). -/
def AdvancedTexture.SampleWithFilter (t : AdvancedTexture) (u v : ℝ)
    (filter : TextureFilter) : Color :=
  let uv : Vector := ⟨u, v, 0⟩
  let transformedUV := t.Transform.MulPosition uv
  let u1 := transformedUV.X
  let v1 := transformedUV.Y
  let u2 := t.wrapCoordinate u1 t.WrapS
  let v2 := t.wrapCoordinate v1 t.WrapT
  let v3 := 1 - v2
  match filter with
  | .FilterNearest => t.sampleNearest u2 v3
  | .FilterLinear => t.sampleBilinear u2 v3
  | .FilterMipmap => t.sampleBilinear u2 v3

/-- AdvancedTexture.Sample (src/advanced_texture.go lines 122-124). -/
def AdvancedTexture.Sample (t : AdvancedTexture) (u v : ℝ) : Color :=
  t.SampleWithFilter u v t.MagFilter

/-- AdvancedTexture.BilinearSample (src/advanced_texture.go lines 127-129). -/
def AdvancedTexture.BilinearSample (t : AdvancedTexture) (u v : ℝ) : Color :=
  t.SampleWithFilter u v .FilterLinear

/-- AlphaMode (src/pbr.go lines 106-115). -/
inductive AlphaMode where
  | AlphaOpaque
  | AlphaMask
  | AlphaBlend
deriving DecidableEq

/-- PBRMaterial (src/pbr.go lines 18-103), trimmed to the fields that the
modelled sampling and shading paths read; the glTF-extension factor and
texture fields (specular, transmission, volume, anisotropy, sheen,
iridescence, dispersion, clearcoat, emissive strength, IOR), the
specular-glossiness legacy fields, DoubleSided and Workflow are omitted:
CalculatePBR and the PBR fragment shader never read them.  Nil texture
interface values become none. -/
structure PBRMaterial where
  BaseColorFactor : Color
  BaseColorTexture : Option Texture
  MetallicFactor : ℝ
  RoughnessFactor : ℝ
  MetallicRoughnessTexture : Option Texture
  NormalTexture : Option Texture
  NormalScale : ℝ
  OcclusionTexture : Option Texture
  OcclusionStrength : ℝ
  EmissiveFactor : Color
  EmissiveTexture : Option Texture
  AlphaCutoff : ℝ
  AlphaMode : AlphaMode

/-- NewPBRMaterial (src/pbr.go lines 118-162) restricted to the modelled
fields: base color white, metallic 1, roughness 1, normal scale 1,
occlusion strength 1, emissive black, alpha cutoff 0.5, opaque. -/
def NewPBRMaterial : PBRMaterial :=
  ⟨⟨1, 1, 1, 1⟩, none, 1, 1, none, none, 1, none, 1, ⟨0, 0, 0, 1⟩, none, 0.5,
   .AlphaOpaque⟩

/-- SampledMaterial (src/pbr.go lines 306-335), trimmed to the fields read
by CalculatePBR and calculateLightContribution. -/
structure SampledMaterial where
  BaseColor : Color
  Metallic : ℝ
  Roughness : ℝ
  Normal : Vector
  Occlusion : ℝ
  Emissive : Color

/-- PBRMaterial.Sample (src/pbr.go lines 165-303) for the modelled
fields: each channel is the factor, multiplied by the bound texture's
sample in the documented channel when present. -/
def PBRMaterial.Sample (m : PBRMaterial) (u v : ℝ) : SampledMaterial :=
  let baseColor := match m.BaseColorTexture with
    | none => m.BaseColorFactor
    | some tex => m.BaseColorFactor.Mul (tex u v)
  let metallic := match m.MetallicRoughnessTexture with
    | none => m.MetallicFactor
    | some tex => m.MetallicFactor * (tex u v).B
  let roughness := match m.MetallicRoughnessTexture with
    | none => m.RoughnessFactor
    | some tex => m.RoughnessFactor * (tex u v).G
  let normal := match m.NormalTexture with
    | none => (⟨0, 0, 1⟩ : Vector)
    | some tex =>
        let normalColor := tex u v
        (Vector.mk ((normalColor.R * 2 - 1) * m.NormalScale)
          ((normalColor.G * 2 - 1) * m.NormalScale)
          (normalColor.B * 2 - 1)).Normalize
  let occlusion := match m.OcclusionTexture with
    | none => (1 : ℝ)
    | some tex => 1 - (1 - (tex u v).R) * m.OcclusionStrength
  let emissive := match m.EmissiveTexture with
    | none => m.EmissiveFactor
    | some tex => m.EmissiveFactor.Mul (tex u v)
  ⟨baseColor, metallic, roughness, normal, occlusion, emissive⟩

/-- LightType (src/pbr.go lines 350-361). -/
inductive LightType where
  | DirectionalLight
  | PointLight
  | SpotLight
  | AmbientLight
deriving DecidableEq

/-- Light (src/pbr.go lines 338-347); the Go field `Type` is renamed
`Kind` because `Type` is reserved in Lean. -/
structure Light where
  Kind : LightType
  Position : Vector
  Direction : Vector
  Color : Color
  Intensity : ℝ
  Range : ℝ
  InnerCone : ℝ
  OuterCone : ℝ

/-- distributionGGX (src/pbr.go lines 521-530). -/
def distributionGGX (NdotH alpha : ℝ) : ℝ :=
  let a2 := alpha * alpha
  let NdotH2 := NdotH * NdotH
  let num := a2
  let denom := NdotH2 * (a2 - 1) + 1
  let denom2 := Real.pi * denom * denom
  num / denom2

/-- geometrySchlickGGX (src/pbr.go lines 533-541). -/
def geometrySchlickGGX (NdotV alpha : ℝ) : ℝ :=
  let r := alpha + 1
  let k := r * r / 8
  let num := NdotV
  let denom := NdotV * (1 - k) + k
  num / denom

/-- geometrySmith (src/pbr.go lines 544-549). -/
def geometrySmith (NdotV NdotL alpha : ℝ) : ℝ :=
  let ggx2 := geometrySchlickGGX NdotV alpha
  let ggx1 := geometrySchlickGGX NdotL alpha
  ggx1 * ggx2

/-- fresnelSchlick (src/pbr.go lines 552-556). -/
def fresnelSchlick (cosTheta : ℝ) (F0 : Vector) : Vector :=
  let f := (1 - cosTheta) ^ (5 : ℕ)
  let one : Vector := ⟨1, 1, 1⟩
  F0.Add ((one.Sub F0).MulScalar f)

/-- Distance attenuation of point and spot lights, extracted verbatim
from calculateLightContribution (src/pbr.go lines 434-443 and 446-454):
the distance is the W-polluted `Vector.Length` of the vector from the
shaded point to the light position; when Range is positive the
attenuation is `max(0, 1 - distance/Range)` squared, otherwise 1. -/
def Light.distanceAttenuation (light : Light) (worldPos : Vector) : ℝ :=
  let lightVec := light.Position.Sub worldPos
  let distance := lightVec.Length
  if 0 < light.Range then
    let attenuation := max 0 (1 - distance / light.Range)
    attenuation * attenuation
  else 1

/-- Spot-light attenuation, extracted verbatim from the SpotLight branch
of calculateLightContribution (src/pbr.go lines 445-469): the distance
attenuation multiplied by the cone falloff, which is 0 outside the outer
cone, 1 inside the inner cone and linear in between. -/
def Light.spotAttenuation (light : Light) (worldPos : Vector) : ℝ :=
  let attenuation := light.distanceAttenuation worldPos
  let lightDir := (light.Position.Sub worldPos).Normalize
  let spotEffect := lightDir.Dot light.Direction.Negate
  let innerCos := Real.cos light.InnerCone
  let outerCos := Real.cos light.OuterCone
  if spotEffect < outerCos then 0
  else if spotEffect > innerCos then attenuation
  else attenuation * ((spotEffect - outerCos) / (innerCos - outerCos))

/-- calculateLightContribution (src/pbr.go lines 415-518): light direction
and radiance per light kind (with the extracted attenuation factors),
then the Cook-Torrance BRDF for lights with positive NdotL.  Ambient
lights short-circuit to base color times light color, intensity and
occlusion. -/
def calculateLightContribution (material : SampledMaterial)
    (worldPos normal viewDir : Vector) (light : Light) (f0 : Vector)
    (alpha : ℝ) : Color :=
  match light.Kind with
  | .AmbientLight =>
      let ambientContrib := (material.BaseColor.Mul light.Color).MulScalar
        (light.Intensity * material.Occlusion)
      ⟨ambientContrib.R, ambientContrib.G, ambientContrib.B, 0⟩
  | kind =>
      let lightDir : Vector :=
        match kind with
        | .DirectionalLight => light.Direction.Negate.Normalize
        | _ => (light.Position.Sub worldPos).Normalize
      let lightColor : Color :=
        match kind with
        | .DirectionalLight => light.Color.MulScalar light.Intensity
        | .PointLight =>
            light.Color.MulScalar (light.Intensity * light.distanceAttenuation worldPos)
        | _ => light.Color.MulScalar (light.Intensity * light.spotAttenuation worldPos)
      let NdotL := max 0 (normal.Dot lightDir)
      if NdotL ≤ 0 then ⟨0, 0, 0, 0⟩
      else
        let halfVector := (lightDir.Add viewDir).Normalize
        let NdotV := max 0 (normal.Dot viewDir)
        let NdotH := max 0 (normal.Dot halfVector)
        let VdotH := max 0 (viewDir.Dot halfVector)
        let D := distributionGGX NdotH alpha
        let G := geometrySmith NdotV NdotL alpha
        let F := fresnelSchlick VdotH f0
        let numerator := D * G
        let denominator := 4 * NdotV * NdotL + 0.001
        let specular := numerator / denominator
        let kS : Vector := ⟨F.X, F.Y, F.Z⟩
        let kD := ((Vector.mk 1 1 1).Sub kS).MulScalar (1 - material.Metallic)
        let diffuse : Vector := ⟨material.BaseColor.R / Real.pi,
          material.BaseColor.G / Real.pi, material.BaseColor.B / Real.pi⟩
        let brdf := (kD.Mul diffuse).Add ⟨specular * F.X, specular * F.Y, specular * F.Z⟩
        let radiance : Vector := ⟨lightColor.R, lightColor.G, lightColor.B⟩
        let contribution := (brdf.Mul radiance).MulScalar NdotL
        ⟨contribution.X, contribution.Y, contribution.Z, 0⟩

/-- CalculatePBR (src/pbr.go lines 367-412): alpha from roughness squared,
base reflectance F0, emissive start, legacy ambient only when no ambient
light is in the list, then the per-light contributions summed in order. -/
def CalculatePBR (material : SampledMaterial) (worldPos worldNormal viewDir : Vector)
    (lights : List Light) (ambientColor : Color) : Color :=
  let alpha := material.Roughness * material.Roughness
  let f0base : Vector := ⟨0.04, 0.04, 0.04⟩
  let f0 :=
    if 0 < material.Metallic then
      f0base.Lerp ⟨material.BaseColor.R, material.BaseColor.G, material.BaseColor.B⟩
        material.Metallic
    else f0base
  let hasAmbientLights := lights.any fun light => light.Kind = .AmbientLight
  let start := material.Emissive
  let withAmbient :=
    if hasAmbientLights = false ∧
        (0 < ambientColor.R ∨ 0 < ambientColor.G ∨ 0 < ambientColor.B) then
      start.Add ((material.BaseColor.Mul ambientColor).MulScalar material.Occlusion)
    else start
  lights.foldl
    (fun finalColor light =>
      finalColor.Add
        (calculateLightContribution material worldPos worldNormal viewDir light f0 alpha))
    withAmbient

/-- Vertex (spec §3): position, normal, 2D texture coordinate stored in a
3-vector, vertex color, and the post-vertex-shader clip-space Output.
Modelled from the spec: the Go Vertex type is not among the provided
source files. -/
structure Vertex where
  Position : Vector
  Normal : Vector
  Texture : Vector
  Color : Color
  Output : VectorW

/-- PBRShader (src/shader.go lines 103-110); the stateless pbrLighting
receiver is dropped and the nil-able material pointer becomes Option. -/
structure PBRShader where
  Matrix : Matrix
  Material : Option PBRMaterial
  Lights : List Light
  AmbientColor : Color
  CameraPosition : Vector

/-- NewPBRShader (src/shader.go lines 113-122): the ambient color is
fixed at (0.1, 0.1, 0.1, 1). -/
def NewPBRShader (matrix : Matrix) (material : Option PBRMaterial)
    (lights : List Light) (cameraPos : Vector) : PBRShader :=
  ⟨matrix, material, lights, ⟨0.1, 0.1, 0.1, 1⟩, cameraPos⟩

/-- PBRShader.Vertex (src/shader.go lines 125-128). -/
def PBRShader.VertexStage (shader : PBRShader) (v : Vertex) : Vertex :=
  { v with Output := shader.Matrix.MulPositionW v.Position }

/-- PBRShader.Fragment (src/shader.go lines 131-171): magenta for a
missing material, otherwise sample the material, run CalculatePBR with
the normalized vertex normal and view direction, and apply the alpha
mode (Mask discards below the cutoff, Blend keeps alpha, Opaque forces
alpha 1, as does the Go default branch). -/
def PBRShader.Fragment (shader : PBRShader) (v : Vertex) : Color :=
  match shader.Material with
  | none => ⟨1, 0, 1, 1⟩
  | some material =>
      let sampledMaterial := material.Sample v.Texture.X v.Texture.Y
      let worldNormal := v.Normal.Normalize
      let viewDir := (shader.CameraPosition.Sub v.Position).Normalize
      let finalColor := CalculatePBR sampledMaterial v.Position worldNormal viewDir
        shader.Lights shader.AmbientColor
      match material.AlphaMode with
      | .AlphaMask =>
          if finalColor.A < material.AlphaCutoff then Discard
          else ⟨finalColor.R, finalColor.G, finalColor.B, 1⟩
      | .AlphaBlend => finalColor
      | .AlphaOpaque => ⟨finalColor.R, finalColor.G, finalColor.B, 1⟩

/-- Triangle (spec §3): holds three vertices by value.  Modelled from the
spec: the Go Triangle type is not among the provided source files. -/
structure Triangle where
  V1 : Vertex
  V2 : Vertex
  V3 : Vertex

/-- Triangle.BoundingBox.  Modelled from the spec: the axis-aligned
bounding box of the three vertex positions. -/
def Triangle.BoundingBox (t : Triangle) : Box :=
  ⟨(t.V1.Position.Min t.V2.Position).Min t.V3.Position,
   (t.V1.Position.Max t.V2.Position).Max t.V3.Position⟩

/-- Line (spec §3): a wireframe segment of two vertices.  Modelled from
the spec: the Go Line type is not among the provided source files. -/
structure Line where
  V1 : Vertex
  V2 : Vertex

/-- Line.BoundingBox.  Modelled from the spec: the axis-aligned bounding
box of the two endpoint positions. -/
def Line.BoundingBox (l : Line) : Box :=
  ⟨l.V1.Position.Min l.V2.Position, l.V1.Position.Max l.V2.Position⟩

/-- Mesh (src/unnamed/part_013 lines 8-12); the lazily cached box pointer
is dropped, since BoundingBox recomputes the same fold it memoises. -/
structure Mesh where
  Triangles : List Triangle
  Lines : List Line

/-- Mesh.BoundingBox (src/unnamed/part_013): extends EmptyBox with every
triangle bounding box, then every line bounding box. -/
def Mesh.BoundingBox (m : Mesh) : Box :=
  let box := m.Triangles.foldl (fun box t => box.Extend t.BoundingBox) EmptyBox
  m.Lines.foldl (fun box l => box.Extend l.BoundingBox) box

/-- SceneNode (src/unnamed/part_001 lines 37-50), trimmed to the fields
the traversal and renderers read: world transform, optional mesh,
optional material, visibility flag and children.  The name, local
transform, parent back-pointer, skin, morph targets and shadow flags are
omitted. -/
inductive SceneNode where
  | mk (worldTransform : Matrix) (mesh : Option Mesh)
      (material : Option PBRMaterial) (visible : Bool)
      (children : List SceneNode)

/-- World transform accessor for SceneNode. -/
def SceneNode.worldTransform : SceneNode → Matrix
  | .mk w _ _ _ _ => w

/-- Mesh accessor for SceneNode. -/
def SceneNode.mesh : SceneNode → Option Mesh
  | .mk _ m _ _ _ => m

/-- Material accessor for SceneNode. -/
def SceneNode.material : SceneNode → Option PBRMaterial
  | .mk _ _ mat _ _ => mat

/-- Visibility accessor for SceneNode. -/
def SceneNode.visible : SceneNode → Bool
  | .mk _ _ _ vis _ => vis

/-- Children accessor for SceneNode. -/
def SceneNode.children : SceneNode → List SceneNode
  | .mk _ _ _ _ cs => cs

mutual
/-- VisitNodes (src/unnamed/part_001 lines 139-144) purified: the list of
nodes in the order the depth-first visitor is applied, the node itself
first, then each child subtree in order.  Children are visited
unconditionally, regardless of visibility or any other flag. -/
def SceneNode.visitedNodes : SceneNode → List SceneNode
  | .mk w m mat vis cs => .mk w m mat vis cs :: visitedList cs

/-- Visit order of a list of sibling subtrees. -/
def visitedList : List SceneNode → List SceneNode
  | [] => []
  | c :: cs => c.visitedNodes ++ visitedList cs
end

mutual
/-- GetRenderableNodes (src/unnamed/part_001 lines 147-157): the visitor
appends every visited node that is visible and has both a mesh and a
material; this is that traversal with the filter fused into it. -/
def SceneNode.GetRenderableNodes : SceneNode → List SceneNode
  | .mk w m mat vis cs =>
      (if vis && m.isSome && mat.isSome then [SceneNode.mk w m mat vis cs] else []) ++
      renderableList cs

/-- Renderable nodes of a list of sibling subtrees. -/
def renderableList : List SceneNode → List SceneNode
  | [] => []
  | c :: cs => c.GetRenderableNodes ++ renderableList cs
end

/-- Scene (src/unnamed/part_001 lines 4-17), trimmed to the fields the
renderers read: root node, lights, and the active camera; the named
catalogues, camera list, animation tables and extension registry are
omitted. -/
structure Scene where
  RootNode : SceneNode
  Lights : List Light
  ActiveCamera : Option Camera

/-- DrawCall records one shader/mesh submission: the Go renderers set
`context.Shader` and call `context.DrawMesh`, modelled as emitting this
pair (the rasterizer itself is outside the modelled core). -/
structure DrawCall where
  shader : PBRShader
  mesh : Mesh

/-- SceneRenderer.RenderNode (src/shader.go lines 572-587): nodes without
mesh or material are skipped; otherwise the PBR shader is built from the
final matrix (camera matrix times world transform), the node material,
the lights, and the hard-coded camera position (0, 0, 5). -/
def SceneRenderer.RenderNode (node : SceneNode) (cameraMatrix : Matrix)
    (lights : List Light) : Option DrawCall :=
  match node.mesh, node.material with
  | some m, some mat =>
      let modelMatrix := node.worldTransform
      let finalMatrix := cameraMatrix.Mul modelMatrix
      some ⟨NewPBRShader finalMatrix (some mat) lights ⟨0, 0, 5⟩, m⟩
  | _, _ => none

/-- SceneRenderer.RenderScene (src/shader.go lines 552-569): no active
camera renders nothing; otherwise the camera matrix is projection times
view and every renderable node is submitted through RenderNode. -/
def SceneRenderer.RenderScene (scene : Scene) : List DrawCall :=
  match scene.ActiveCamera with
  | none => []
  | some camera =>
      let viewMatrix := camera.GetViewMatrix
      let projectionMatrix := camera.GetProjectionMatrix
      let cameraMatrix := projectionMatrix.Mul viewMatrix
      let renderables := scene.RootNode.GetRenderableNodes
      renderables.filterMap fun node =>
        SceneRenderer.RenderNode node cameraMatrix scene.Lights

/-- CullingSceneRenderer.RenderNodeWithCulling (src/shader.go lines
730-754): like RenderNode, but first transforms the mesh bounds to world
space and skips the node when the frustum test rejects the box. -/
def CullingSceneRenderer.RenderNodeWithCulling (node : SceneNode)
    (cameraMatrix : Matrix) (lights : List Light) (frustum : ViewFrustum) :
    Option DrawCall :=
  match node.mesh, node.material with
  | some m, some mat =>
      let meshBounds := m.BoundingBox
      let worldBounds := node.worldTransform.MulBox meshBounds
      if frustum.IntersectsBox worldBounds then
        some ⟨NewPBRShader (cameraMatrix.Mul node.worldTransform) (some mat) lights
          ⟨0, 0, 5⟩, m⟩
      else none
  | _, _ => none

/-- CullingSceneRenderer.RenderScene (src/shader.go lines 707-727):
builds the frustum from the camera matrix and submits every renderable
node through RenderNodeWithCulling. -/
def CullingSceneRenderer.RenderScene (scene : Scene) : List DrawCall :=
  match scene.ActiveCamera with
  | none => []
  | some camera =>
      let viewMatrix := camera.GetViewMatrix
      let projectionMatrix := camera.GetProjectionMatrix
      let cameraMatrix := projectionMatrix.Mul viewMatrix
      let frustum := NewViewFrustumFromMatrix cameraMatrix
      scene.RootNode.GetRenderableNodes.filterMap fun node =>
        CullingSceneRenderer.RenderNodeWithCulling node cameraMatrix scene.Lights frustum

/-- C3: the claim says `a.Dot(b)` is the Euclidean 3D dot product
`a.X*b.X + a.Y*b.Y + a.Z*b.Z`.  The code converts both operands to SIMD
vectors with W slot 1 and takes the 4-slot dot, so the result is the 3D
dot product plus one; at the failing input a = b = (0,0,0) the code
returns 1 where the claim requires 0. -/
theorem dot_is_euclidean_dot_plus_one :
    Vector.Dot ⟨0, 0, 0⟩ ⟨0, 0, 0⟩ = 1 ∧
    ∀ a b : Vector, Vector.Dot a b = a.X * b.X + a.Y * b.Y + a.Z * b.Z + 1 := by
  constructor
  · norm_num [Vector.Dot, SIMDVectorDot, SIMDVector4.Dot, NewSIMDVector4FromVector]
  · intro a b
    simp [Vector.Dot, SIMDVectorDot, SIMDVector4.Dot, NewSIMDVector4FromVector]

/-- C2: the claim says `v.Normalize().Length()` lies in {0} ∪ [1−δ, 1+δ]
with δ < 1e-10, the value 0 occurring exactly for the zero input.  The
code routes both Normalize and Length through the SIMD conversion with W
slot 1, so for the failing input v = (1,0,0) the value is √(3/2) ≈ 1.2247,
outside the tolerance band, and for the zero input the value is 1, not 0.
Normalize of the zero vector does return the zero vector. -/
theorem normalize_length_outside_unit_band :
    Vector.Normalize ⟨0, 0, 0⟩ = ⟨0, 0, 0⟩ ∧
    (Vector.Normalize ⟨0, 0, 0⟩).Length = 1 ∧
    (Vector.Normalize ⟨1, 0, 0⟩).Length = Real.sqrt (3 / 2) ∧
    1 + 1 / 10 ^ 10 < Real.sqrt (3 / 2) := by
  have h0 : Vector.Normalize ⟨0, 0, 0⟩ = ⟨0, 0, 0⟩ := by
    norm_num [Vector.Normalize, NewSIMDVector4FromVector, SIMDVector4.Normalize,
      SIMDVector4.Length, SIMDVector4.DivScalar, SIMDVector4.ToVector]
  have hs2 : Real.sqrt 2 * Real.sqrt 2 = 2 := Real.mul_self_sqrt (by norm_num)
  have hs2ne : Real.sqrt 2 ≠ 0 := by
    have : 0 < Real.sqrt 2 := Real.sqrt_pos.mpr (by norm_num)
    exact ne_of_gt this
  have h1 : Vector.Normalize ⟨1, 0, 0⟩ = ⟨1 / Real.sqrt 2, 0, 0⟩ := by
    norm_num [Vector.Normalize, NewSIMDVector4FromVector, SIMDVector4.Normalize,
      SIMDVector4.Length, SIMDVector4.DivScalar, SIMDVector4.ToVector, hs2ne]
  refine ⟨h0, ?_, ?_, ?_⟩
  · rw [h0]
    norm_num [Vector.Length, NewSIMDVector4FromVector, SIMDVector4.Length]
  · rw [h1]
    show Real.sqrt (1 / Real.sqrt 2 * (1 / Real.sqrt 2) + 0 * 0 + 0 * 0 + 1 * 1) =
      Real.sqrt (3 / 2)
    congr 1
    field_simp
    nlinarith [hs2]
  · have h : (1 + 1 / 10 ^ 10 : ℝ) ^ 2 < 3 / 2 := by norm_num
    have hle : (0 : ℝ) ≤ 1 + 1 / 10 ^ 10 := by norm_num
    calc (1 + 1 / 10 ^ 10 : ℝ)
        = Real.sqrt ((1 + 1 / 10 ^ 10) ^ 2) := (Real.sqrt_sq hle).symm
      _ < Real.sqrt (3 / 2) := by
          exact Real.sqrt_lt_sqrt (by positivity) h

/-- C5 counterexample: the claim says that whenever
`w = (M.MulPositionW p).W` is nonzero, `M.MulPosition p` equals the
component-wise quotient of the homogeneous product by w.  For the matrix
equal to the identity except entry X33 = 2 and p = (1,0,0), w = 2 is
nonzero, `MulPosition` returns (1,0,0), but the quotient is (1/2,0,0):
`MulPosition` performs no perspective divide. -/
theorem mulPosition_no_divide_cex :
    ((Matrix.mk 1 0 0 0 0 1 0 0 0 0 1 0 0 0 0 2).MulPositionW ⟨1, 0, 0⟩).W ≠ 0 ∧
    (Matrix.mk 1 0 0 0 0 1 0 0 0 0 1 0 0 0 0 2).MulPosition ⟨1, 0, 0⟩ ≠
      ⟨((Matrix.mk 1 0 0 0 0 1 0 0 0 0 1 0 0 0 0 2).MulPositionW ⟨1, 0, 0⟩).X /
         ((Matrix.mk 1 0 0 0 0 1 0 0 0 0 1 0 0 0 0 2).MulPositionW ⟨1, 0, 0⟩).W,
       ((Matrix.mk 1 0 0 0 0 1 0 0 0 0 1 0 0 0 0 2).MulPositionW ⟨1, 0, 0⟩).Y /
         ((Matrix.mk 1 0 0 0 0 1 0 0 0 0 1 0 0 0 0 2).MulPositionW ⟨1, 0, 0⟩).W,
       ((Matrix.mk 1 0 0 0 0 1 0 0 0 0 1 0 0 0 0 2).MulPositionW ⟨1, 0, 0⟩).Z /
         ((Matrix.mk 1 0 0 0 0 1 0 0 0 0 1 0 0 0 0 2).MulPositionW ⟨1, 0, 0⟩).W⟩ := by
  constructor
  · norm_num [Matrix.MulPositionW, NewSIMDMat4, SIMDMat4.MulPositionSIMD,
      NewSIMDVector4FromVector]
  · norm_num [Matrix.MulPosition, Matrix.MulPositionW, NewSIMDMat4,
      SIMDMat4.MulPositionSIMD, NewSIMDVector4FromVector, Vector.mk.injEq]

/-- C5 amended: for every Matrix M and Vector p such that the homogeneous
product has w = 1 (in particular every affine matrix with last row
(0,0,0,1)), `M.MulPosition p` equals the component-wise quotient of
`M.MulPositionW p` by w.  The code performs no perspective divide, so the
agreement is exactly the w = 1 case. -/
theorem mulPosition_eq_homogeneous_quotient_when_w_one (a : Matrix) (b : Vector)
    (h : (a.MulPositionW b).W = 1) :
    a.MulPosition b = ⟨(a.MulPositionW b).X / (a.MulPositionW b).W,
                       (a.MulPositionW b).Y / (a.MulPositionW b).W,
                       (a.MulPositionW b).Z / (a.MulPositionW b).W⟩ := by
  rw [h]
  simp [Matrix.MulPosition, Matrix.MulPositionW, NewSIMDMat4,
    SIMDMat4.MulPositionSIMD, NewSIMDVector4FromVector]

/-- Witness for the amended C5 theorem at the identity matrix and
p = (1,2,3). -/
theorem mulPosition_eq_homogeneous_quotient_when_w_one_witness :
    (Identity.MulPositionW ⟨1, 2, 3⟩).W = 1 ∧
    Identity.MulPosition ⟨1, 2, 3⟩ =
      ⟨(Identity.MulPositionW ⟨1, 2, 3⟩).X / (Identity.MulPositionW ⟨1, 2, 3⟩).W,
       (Identity.MulPositionW ⟨1, 2, 3⟩).Y / (Identity.MulPositionW ⟨1, 2, 3⟩).W,
       (Identity.MulPositionW ⟨1, 2, 3⟩).Z / (Identity.MulPositionW ⟨1, 2, 3⟩).W⟩ := by
  have hw : (Identity.MulPositionW ⟨1, 2, 3⟩).W = 1 := by
    norm_num [Identity, Matrix.MulPositionW, NewSIMDMat4, SIMDMat4.MulPositionSIMD,
      NewSIMDVector4FromVector]
  exact ⟨hw, mulPosition_eq_homogeneous_quotient_when_w_one Identity ⟨1, 2, 3⟩ hw⟩

/-- C8: for every matrix with determinant zero, Inverse returns the
identity matrix rather than failing or surfacing an error. -/
theorem inverse_of_singular_is_identity (a : Matrix) (h : a.Determinant = 0) :
    a.Inverse = Identity := by
  simp [Matrix.Inverse, h]

/-- Witness for C8 at the all-zero matrix, whose determinant is zero. -/
theorem inverse_of_singular_is_identity_witness :
    (Matrix.mk 0 0 0 0 0 0 0 0 0 0 0 0 0 0 0 0).Determinant = 0 ∧
    (Matrix.mk 0 0 0 0 0 0 0 0 0 0 0 0 0 0 0 0).Inverse = Identity := by
  have hd : (Matrix.mk 0 0 0 0 0 0 0 0 0 0 0 0 0 0 0 0).Determinant = 0 := by
    norm_num [Matrix.Determinant]
  exact ⟨hd, inverse_of_singular_is_identity _ hd⟩

/-- Structural induction over scene nodes: to prove a property of every
node it suffices to prove it for a node assuming it for all children. -/
theorem SceneNode.strongInduction (P : SceneNode → Prop)
    (h : ∀ w m mat vis cs, (∀ c ∈ cs, P c) → P (.mk w m mat vis cs)) :
    ∀ n, P n
  | .mk w m mat vis cs => h w m mat vis cs fun c hc =>
      SceneNode.strongInduction P h c
termination_by n => sizeOf n
decreasing_by
  have := List.sizeOf_lt_of_mem hc
  simp only [SceneNode.mk.sizeOf_spec]
  omega

/-- C9: GetRenderableNodes filters visibility per node, not
hierarchically.  It equals the depth-first visit order filtered by the
per-node condition (visible, mesh present, material present), so a node
satisfying the three conditions is included even when an ancestor is
invisible (the traversal descends into children unconditionally), and a
node failing any condition is excluded regardless of its descendants. -/
theorem getRenderableNodes_is_per_node_filter :
    (∀ root : SceneNode,
        root.GetRenderableNodes = root.visitedNodes.filter
          (fun n => n.visible && n.mesh.isSome && n.material.isSome)) ∧
    (∀ root n : SceneNode,
        n ∈ root.GetRenderableNodes ↔
          n ∈ root.visitedNodes ∧ n.visible = true ∧ n.mesh.isSome = true ∧
            n.material.isSome = true) := by
  have hlist : ∀ l : List SceneNode,
      (∀ c ∈ l, c.GetRenderableNodes = c.visitedNodes.filter
        (fun n => n.visible && n.mesh.isSome && n.material.isSome)) →
      renderableList l = (visitedList l).filter
        (fun n => n.visible && n.mesh.isSome && n.material.isSome) := by
    intro l
    induction l with
    | nil => intro _; simp [renderableList, visitedList]
    | cons c cs ih =>
        intro hc
        rw [renderableList, visitedList, List.filter_append, hc c (by simp),
          ih fun x hx => hc x (by simp [hx])]
  have main : ∀ root : SceneNode,
      root.GetRenderableNodes = root.visitedNodes.filter
        (fun n => n.visible && n.mesh.isSome && n.material.isSome) := by
    refine SceneNode.strongInduction _ ?_
    intro w m mat vis cs ih
    rw [SceneNode.GetRenderableNodes, SceneNode.visitedNodes, List.filter_cons,
      hlist cs ih]
    by_cases hcond : (vis && m.isSome && mat.isSome) = true
    · simp [SceneNode.visible, SceneNode.mesh, SceneNode.material, hcond]
    · simp [SceneNode.visible, SceneNode.mesh, SceneNode.material, hcond]
  refine ⟨main, ?_⟩
  intro root n
  rw [main root]
  simp [List.mem_filter, Bool.and_eq_true, and_assoc]

/-- C10: PBRShader.Fragment called with a missing material returns the
opaque magenta color (1, 0, 1, 1) for every input vertex, rather than
failing or discarding the fragment. -/
theorem fragment_nil_material_is_magenta (shader : PBRShader) (v : Vertex)
    (h : shader.Material = none) :
    shader.Fragment v = ⟨1, 0, 1, 1⟩ := by
  rw [PBRShader.Fragment.eq_def, h]

/-- Witness for C10 at a concrete shader with no material and a concrete
vertex. -/
theorem fragment_nil_material_is_magenta_witness :
    (NewPBRShader Identity none [] ⟨0, 0, 0⟩).Material = none ∧
    (NewPBRShader Identity none [] ⟨0, 0, 0⟩).Fragment
        ⟨⟨0, 0, 0⟩, ⟨0, 0, 1⟩, ⟨0, 0, 0⟩, ⟨1, 1, 1, 1⟩, ⟨0, 0, 0, 1⟩⟩ =
      ⟨1, 0, 1, 1⟩ :=
  ⟨rfl, fragment_nil_material_is_magenta _ _ rfl⟩

/-- C6: the claim says the point-light distance attenuation equals
`max(0, 1 - d/Range)^2` where d is the distance from the light position
to the shaded point.  The code computes the distance with the W-polluted
`Vector.Length`, so for a light at the origin with Range 4 and the shaded
point (3, 0, 0) (true distance 3) it evaluates to
`(1 - sqrt 10 / 4)^2`, which differs from the claimed
`max(0, 1 - 3/4)^2 = 1/16`. -/
theorem point_light_attenuation_uses_polluted_distance :
    Light.distanceAttenuation
        ⟨.PointLight, ⟨0, 0, 0⟩, ⟨0, 0, 0⟩, ⟨1, 1, 1, 1⟩, 1, 4, 0, 0⟩ ⟨3, 0, 0⟩ =
      (1 - Real.sqrt 10 / 4) * (1 - Real.sqrt 10 / 4) ∧
    max 0 (1 - 3 / 4 : ℝ) * max 0 (1 - 3 / 4 : ℝ) = 1 / 16 ∧
    (1 - Real.sqrt 10 / 4) * (1 - Real.sqrt 10 / 4) ≠ (1 / 16 : ℝ) := by
  have hs2 : Real.sqrt 10 * Real.sqrt 10 = 10 :=
    Real.mul_self_sqrt (by norm_num)
  have hnn : (0 : ℝ) ≤ Real.sqrt 10 := Real.sqrt_nonneg 10
  have h4 : Real.sqrt 10 < 4 := by nlinarith
  refine ⟨?_, ?_, ?_⟩
  · have harg : Light.distanceAttenuation
        ⟨.PointLight, ⟨0, 0, 0⟩, ⟨0, 0, 0⟩, ⟨1, 1, 1, 1⟩, 1, 4, 0, 0⟩ ⟨3, 0, 0⟩ =
        max 0 (1 - Real.sqrt 10 / 4) * max 0 (1 - Real.sqrt 10 / 4) := by
      norm_num [Light.distanceAttenuation, Vector.Sub, Vector.Length,
        NewSIMDVector4FromVector, SIMDVector4.Sub, SIMDVector4.ToVector,
        SIMDVector4.Length]
    rw [harg, max_eq_right (by nlinarith)]
  · rw [show (1 - 3 / 4 : ℝ) = 1 / 4 by norm_num,
      max_eq_right (by norm_num : (0 : ℝ) ≤ 1 / 4)]
    norm_num
  · intro h
    nlinarith

/-- C7: the wrap functions satisfy the claimed identities: Repeat is
1-periodic, Clamp lands in [0, 1], Mirror is 2-periodic, and a texture
with Repeat wrap (and the identity coordinate transform installed by
NewAdvancedTexture) samples identically at u = 1.25 and u = 0.25 for any
v and filter. -/
theorem uv_wrap_mode_properties :
    (∀ (t : AdvancedTexture) (u : ℝ),
        t.wrapCoordinate (u + 1) .WrapRepeat = t.wrapCoordinate u .WrapRepeat) ∧
    (∀ (t : AdvancedTexture) (u : ℝ),
        0 ≤ t.wrapCoordinate u .WrapClamp ∧ t.wrapCoordinate u .WrapClamp ≤ 1) ∧
    (∀ (t : AdvancedTexture) (u : ℝ),
        t.wrapCoordinate (u + 2) .WrapMirror = t.wrapCoordinate u .WrapMirror) ∧
    (∀ (t : AdvancedTexture) (v : ℝ) (filter : TextureFilter),
        AdvancedTexture.SampleWithFilter
            { t with WrapS := .WrapRepeat, Transform := Identity } 1.25 v filter =
          AdvancedTexture.SampleWithFilter
            { t with WrapS := .WrapRepeat, Transform := Identity } 0.25 v filter) := by
  refine ⟨?_, ?_, ?_, ?_⟩
  · intro t u
    simp only [AdvancedTexture.wrapCoordinate, Int.floor_add_one]
    push_cast
    ring
  · intro t u
    simp only [AdvancedTexture.wrapCoordinate]
    exact ⟨le_max_left 0 _, max_le (by norm_num) (min_le_left 1 u)⟩
  · intro t u
    have hfrac : (u + 2) - (⌊u + 2⌋ : ℝ) = u - (⌊u⌋ : ℝ) := by
      rw [show (u + 2 : ℝ) = u + ((2 : ℤ) : ℝ) by push_cast; ring,
        Int.floor_add_int]
      push_cast
      ring
    simp only [AdvancedTexture.wrapCoordinate]
    rw [hfrac]
  · intro t v filter
    have h1 : ⌊(1.25 : ℝ)⌋ = 1 := by norm_num
    have h2 : ⌊(0.25 : ℝ)⌋ = 0 := by norm_num
    cases filter <;>
      · simp only [AdvancedTexture.SampleWithFilter, Matrix.MulPosition, Identity,
          AdvancedTexture.wrapCoordinate]
        norm_num [h1, h2]

/-- C4 counterexample: the claim says the scene renderer instantiates the
PBR shader with the position of the active camera.  In a scene whose
active camera sits at (1, 2, 3), the only emitted draw call carries
camera position (0, 0, 5): the renderer hard-codes that position. -/
theorem renderScene_camera_position_cex :
    (SceneRenderer.RenderScene
        ⟨SceneNode.mk Identity (some ⟨[], []⟩) (some NewPBRMaterial) true [], [],
         some ⟨⟨1, 2, 3⟩, ⟨0, 0, 0⟩, ⟨0, 1, 0⟩, 1, 1, 0.1, 100,
           .PerspectiveProjection, 0⟩⟩).map (fun dc => dc.shader.CameraPosition) =
      [⟨0, 0, 5⟩] ∧
    (⟨0, 0, 5⟩ : Vector) ≠
      (Camera.mk ⟨1, 2, 3⟩ ⟨0, 0, 0⟩ ⟨0, 1, 0⟩ 1 1 0.1 100
        .PerspectiveProjection 0).Position := by
  constructor
  · simp [SceneRenderer.RenderScene, SceneRenderer.RenderNode,
      SceneNode.GetRenderableNodes, renderableList, SceneNode.mesh,
      SceneNode.material, SceneNode.visible, SceneNode.worldTransform, NewPBRShader]
  · simp only [Vector.mk.injEq]
    norm_num

/-- C4 amended: for every renderable node (with mesh m and material mat),
the scene renderer computes M_final as the camera matrix times the node
world transform and instantiates the PBR shader with M_final, the node
material, the scene lights, and the fixed camera position (0, 0, 5) (not
the active camera's position); the resulting draw call is emitted by
RenderScene. -/
theorem renderScene_shader_parameters (scene : Scene) (camera : Camera)
    (node : SceneNode) (m : Mesh) (mat : PBRMaterial)
    (hc : scene.ActiveCamera = some camera)
    (hmem : node ∈ scene.RootNode.GetRenderableNodes)
    (hm : node.mesh = some m) (hmat : node.material = some mat) :
    SceneRenderer.RenderNode node
        (camera.GetProjectionMatrix.Mul camera.GetViewMatrix) scene.Lights =
      some ⟨NewPBRShader
          ((camera.GetProjectionMatrix.Mul camera.GetViewMatrix).Mul
            node.worldTransform) (some mat) scene.Lights ⟨0, 0, 5⟩, m⟩ ∧
    (⟨NewPBRShader
        ((camera.GetProjectionMatrix.Mul camera.GetViewMatrix).Mul
          node.worldTransform) (some mat) scene.Lights ⟨0, 0, 5⟩, m⟩ : DrawCall) ∈
      SceneRenderer.RenderScene scene := by
  have hnode : SceneRenderer.RenderNode node
      (camera.GetProjectionMatrix.Mul camera.GetViewMatrix) scene.Lights =
      some ⟨NewPBRShader
        ((camera.GetProjectionMatrix.Mul camera.GetViewMatrix).Mul
          node.worldTransform) (some mat) scene.Lights ⟨0, 0, 5⟩, m⟩ := by
    rw [SceneRenderer.RenderNode.eq_def, hm, hmat]
  refine ⟨hnode, ?_⟩
  rw [SceneRenderer.RenderScene.eq_def, hc]
  exact List.mem_filterMap.mpr ⟨node, hmem, hnode⟩

/-- Witness for the amended C4 theorem at a one-node scene with a camera
at (1, 2, 3). -/
theorem renderScene_shader_parameters_witness :
    (Scene.mk (SceneNode.mk Identity (some ⟨[], []⟩) (some NewPBRMaterial) true [])
        [] (some ⟨⟨1, 2, 3⟩, ⟨0, 0, 0⟩, ⟨0, 1, 0⟩, 1, 1, 0.1, 100,
          .PerspectiveProjection, 0⟩)).ActiveCamera =
      some ⟨⟨1, 2, 3⟩, ⟨0, 0, 0⟩, ⟨0, 1, 0⟩, 1, 1, 0.1, 100,
        .PerspectiveProjection, 0⟩ ∧
    (SceneNode.mk Identity (some ⟨[], []⟩) (some NewPBRMaterial) true []) ∈
      (Scene.mk (SceneNode.mk Identity (some ⟨[], []⟩) (some NewPBRMaterial) true [])
        [] (some ⟨⟨1, 2, 3⟩, ⟨0, 0, 0⟩, ⟨0, 1, 0⟩, 1, 1, 0.1, 100,
          .PerspectiveProjection, 0⟩)).RootNode.GetRenderableNodes ∧
    (⟨NewPBRShader
        (((Camera.mk ⟨1, 2, 3⟩ ⟨0, 0, 0⟩ ⟨0, 1, 0⟩ 1 1 0.1 100
            .PerspectiveProjection 0).GetProjectionMatrix.Mul
          (Camera.mk ⟨1, 2, 3⟩ ⟨0, 0, 0⟩ ⟨0, 1, 0⟩ 1 1 0.1 100
            .PerspectiveProjection 0).GetViewMatrix).Mul
          (SceneNode.mk Identity (some ⟨[], []⟩) (some NewPBRMaterial)
            true []).worldTransform) (some NewPBRMaterial) [] ⟨0, 0, 5⟩,
      Mesh.mk [] []⟩ : DrawCall) ∈
      SceneRenderer.RenderScene
        (Scene.mk (SceneNode.mk Identity (some ⟨[], []⟩) (some NewPBRMaterial) true [])
          [] (some ⟨⟨1, 2, 3⟩, ⟨0, 0, 0⟩, ⟨0, 1, 0⟩, 1, 1, 0.1, 100,
            .PerspectiveProjection, 0⟩)) := by
  have hmem : (SceneNode.mk Identity (some ⟨[], []⟩) (some NewPBRMaterial) true []) ∈
      (Scene.mk (SceneNode.mk Identity (some ⟨[], []⟩) (some NewPBRMaterial) true [])
        [] (some ⟨⟨1, 2, 3⟩, ⟨0, 0, 0⟩, ⟨0, 1, 0⟩, 1, 1, 0.1, 100,
          .PerspectiveProjection, 0⟩)).RootNode.GetRenderableNodes := by
    simp [SceneNode.GetRenderableNodes, renderableList, SceneNode.mesh,
      SceneNode.material, SceneNode.visible]
  exact ⟨rfl, hmem,
    (renderScene_shader_parameters _ _ _ _ _ rfl hmem rfl rfl).2⟩

/-- Dot-product bound behind the positive-vertex test: for any point
inside the box, the per-axis products of the point with a normal are at
most those of the positive vertex chosen by IntersectsBox. -/
theorem dot_le_positive_vertex (n p : Vector) (box : Box)
    (hp : box.Contains p) :
    p.X * n.X + p.Y * n.Y + p.Z * n.Z ≤
      (if 0 ≤ n.X then box.Max.X else box.Min.X) * n.X +
      (if 0 ≤ n.Y then box.Max.Y else box.Min.Y) * n.Y +
      (if 0 ≤ n.Z then box.Max.Z else box.Min.Z) * n.Z := by
  obtain ⟨h1, h2, h3, h4, h5, h6⟩ := hp
  have hx : p.X * n.X ≤ (if 0 ≤ n.X then box.Max.X else box.Min.X) * n.X := by
    by_cases hnx : 0 ≤ n.X
    · rw [if_pos hnx]
      exact mul_le_mul_of_nonneg_right h2 hnx
    · rw [if_neg hnx]
      exact mul_le_mul_of_nonpos_right h1 (le_of_not_le hnx)
  have hy : p.Y * n.Y ≤ (if 0 ≤ n.Y then box.Max.Y else box.Min.Y) * n.Y := by
    by_cases hny : 0 ≤ n.Y
    · rw [if_pos hny]
      exact mul_le_mul_of_nonneg_right h4 hny
    · rw [if_neg hny]
      exact mul_le_mul_of_nonpos_right h3 (le_of_not_le hny)
  have hz : p.Z * n.Z ≤ (if 0 ≤ n.Z then box.Max.Z else box.Min.Z) * n.Z := by
    by_cases hnz : 0 ≤ n.Z
    · rw [if_pos hnz]
      exact mul_le_mul_of_nonneg_right h6 hnz
    · rw [if_neg hnz]
      exact mul_le_mul_of_nonpos_right h5 (le_of_not_le hnz)
  linarith

/-- C1: frustum culling is conservative.  First conjunct: IntersectsBox
returns true for every box containing a point that satisfies all six
plane inequalities of the frustum (no false negatives; the W-polluted dot
product only adds a slack of +1 to each test, which keeps it
conservative).  Second conjunct: inside CullingSceneRenderer.RenderScene,
every renderable node whose world-space mesh bounding box contains a
point of the view frustum built from the active camera's
projection-view matrix is not culled: its draw call is computed by
RenderNodeWithCulling and emitted by RenderScene. -/
theorem frustum_culling_is_conservative :
    (∀ (f : ViewFrustum) (box : Box) (p : Vector),
        box.Contains p →
        (∀ i : Fin 6,
          0 ≤ p.X * (f.Planes i).Normal.X + p.Y * (f.Planes i).Normal.Y +
              p.Z * (f.Planes i).Normal.Z + (f.Planes i).Distance) →
        f.IntersectsBox box = true) ∧
    (∀ (scene : Scene) (camera : Camera) (node : SceneNode) (m : Mesh)
        (mat : PBRMaterial) (p : Vector),
        scene.ActiveCamera = some camera →
        node ∈ scene.RootNode.GetRenderableNodes →
        node.mesh = some m → node.material = some mat →
        (node.worldTransform.MulBox m.BoundingBox).Contains p →
        (∀ i : Fin 6,
          0 ≤ p.X * ((NewViewFrustumFromMatrix
                (camera.GetProjectionMatrix.Mul camera.GetViewMatrix)).Planes i).Normal.X +
              p.Y * ((NewViewFrustumFromMatrix
                (camera.GetProjectionMatrix.Mul camera.GetViewMatrix)).Planes i).Normal.Y +
              p.Z * ((NewViewFrustumFromMatrix
                (camera.GetProjectionMatrix.Mul camera.GetViewMatrix)).Planes i).Normal.Z +
              ((NewViewFrustumFromMatrix
                (camera.GetProjectionMatrix.Mul camera.GetViewMatrix)).Planes i).Distance) →
        CullingSceneRenderer.RenderNodeWithCulling node
            (camera.GetProjectionMatrix.Mul camera.GetViewMatrix) scene.Lights
            (NewViewFrustumFromMatrix
              (camera.GetProjectionMatrix.Mul camera.GetViewMatrix)) =
          some ⟨NewPBRShader
              ((camera.GetProjectionMatrix.Mul camera.GetViewMatrix).Mul
                node.worldTransform) (some mat) scene.Lights ⟨0, 0, 5⟩, m⟩ ∧
        (⟨NewPBRShader
            ((camera.GetProjectionMatrix.Mul camera.GetViewMatrix).Mul
              node.worldTransform) (some mat) scene.Lights ⟨0, 0, 5⟩, m⟩ :
          DrawCall) ∈ CullingSceneRenderer.RenderScene scene) := by
  have part1 : ∀ (f : ViewFrustum) (box : Box) (p : Vector),
      box.Contains p →
      (∀ i : Fin 6,
        0 ≤ p.X * (f.Planes i).Normal.X + p.Y * (f.Planes i).Normal.Y +
            p.Z * (f.Planes i).Normal.Z + (f.Planes i).Distance) →
      f.IntersectsBox box = true := by
    intro f box p hp hfr
    rw [ViewFrustum.IntersectsBox, List.all_eq_true]
    intro i _
    have hb := dot_le_positive_vertex (f.Planes i).Normal p box hp
    have hi := hfr i
    simp only [Bool.not_eq_true', decide_eq_false_iff_not, not_lt,
      Vector.Dot, SIMDVectorDot, SIMDVector4.Dot, NewSIMDVector4FromVector]
    linarith
  refine ⟨part1, ?_⟩
  intro scene camera node m mat p hc hmem hm hmat hcont hplanes
  have hibox : (NewViewFrustumFromMatrix
      (camera.GetProjectionMatrix.Mul camera.GetViewMatrix)).IntersectsBox
      (node.worldTransform.MulBox m.BoundingBox) = true :=
    part1 _ _ p hcont hplanes
  have hnode : CullingSceneRenderer.RenderNodeWithCulling node
      (camera.GetProjectionMatrix.Mul camera.GetViewMatrix) scene.Lights
      (NewViewFrustumFromMatrix
        (camera.GetProjectionMatrix.Mul camera.GetViewMatrix)) =
      some ⟨NewPBRShader
        ((camera.GetProjectionMatrix.Mul camera.GetViewMatrix).Mul
          node.worldTransform) (some mat) scene.Lights ⟨0, 0, 5⟩, m⟩ := by
    rw [CullingSceneRenderer.RenderNodeWithCulling.eq_def, hm, hmat]
    simp only [hibox, if_true]
  refine ⟨hnode, ?_⟩
  rw [CullingSceneRenderer.RenderScene.eq_def, hc]
  exact List.mem_filterMap.mpr ⟨node, hmem, hnode⟩

/-- Witness for C1: the trivial all-zero frustum passes the point box at
the origin (first conjunct of the theorem), and in a one-node scene with
an orthographic camera at (0, 0, 5) looking at the origin, the node with
an empty mesh at the origin is not culled: RenderNodeWithCulling returns
its draw call and RenderScene emits it (second conjunct). -/
theorem frustum_culling_is_conservative_witness :
    Box.Contains ⟨⟨0, 0, 0⟩, ⟨0, 0, 0⟩⟩ ⟨0, 0, 0⟩ ∧
    (ViewFrustum.mk fun _ => ⟨⟨0, 0, 0⟩, 0⟩).IntersectsBox
      ⟨⟨0, 0, 0⟩, ⟨0, 0, 0⟩⟩ = true ∧
    CullingSceneRenderer.RenderNodeWithCulling
        (SceneNode.mk Identity (some ⟨[], []⟩) (some NewPBRMaterial) true [])
        ((Camera.mk ⟨0, 0, 5⟩ ⟨0, 0, 0⟩ ⟨0, 1, 0⟩ 1 1 0.1 100
            .OrthographicProjection 2).GetProjectionMatrix.Mul
          (Camera.mk ⟨0, 0, 5⟩ ⟨0, 0, 0⟩ ⟨0, 1, 0⟩ 1 1 0.1 100
            .OrthographicProjection 2).GetViewMatrix) []
        (NewViewFrustumFromMatrix
          ((Camera.mk ⟨0, 0, 5⟩ ⟨0, 0, 0⟩ ⟨0, 1, 0⟩ 1 1 0.1 100
              .OrthographicProjection 2).GetProjectionMatrix.Mul
            (Camera.mk ⟨0, 0, 5⟩ ⟨0, 0, 0⟩ ⟨0, 1, 0⟩ 1 1 0.1 100
              .OrthographicProjection 2).GetViewMatrix)) =
      some ⟨NewPBRShader
          (((Camera.mk ⟨0, 0, 5⟩ ⟨0, 0, 0⟩ ⟨0, 1, 0⟩ 1 1 0.1 100
                .OrthographicProjection 2).GetProjectionMatrix.Mul
              (Camera.mk ⟨0, 0, 5⟩ ⟨0, 0, 0⟩ ⟨0, 1, 0⟩ 1 1 0.1 100
                .OrthographicProjection 2).GetViewMatrix).Mul
            (SceneNode.mk Identity (some ⟨[], []⟩) (some NewPBRMaterial)
              true []).worldTransform) (some NewPBRMaterial) [] ⟨0, 0, 5⟩,
        Mesh.mk [] []⟩ ∧
    (⟨NewPBRShader
        (((Camera.mk ⟨0, 0, 5⟩ ⟨0, 0, 0⟩ ⟨0, 1, 0⟩ 1 1 0.1 100
              .OrthographicProjection 2).GetProjectionMatrix.Mul
            (Camera.mk ⟨0, 0, 5⟩ ⟨0, 0, 0⟩ ⟨0, 1, 0⟩ 1 1 0.1 100
              .OrthographicProjection 2).GetViewMatrix).Mul
          (SceneNode.mk Identity (some ⟨[], []⟩) (some NewPBRMaterial)
            true []).worldTransform) (some NewPBRMaterial) [] ⟨0, 0, 5⟩,
      Mesh.mk [] []⟩ : DrawCall) ∈
      CullingSceneRenderer.RenderScene
        (Scene.mk (SceneNode.mk Identity (some ⟨[], []⟩) (some NewPBRMaterial) true [])
          [] (some ⟨⟨0, 0, 5⟩, ⟨0, 0, 0⟩, ⟨0, 1, 0⟩, 1, 1, 0.1, 100,
            .OrthographicProjection, 2⟩)) := by
  have h1 : Box.Contains ⟨⟨0, 0, 0⟩, ⟨0, 0, 0⟩⟩ ⟨0, 0, 0⟩ := by
    norm_num [Box.Contains]
  have h2 : (ViewFrustum.mk fun _ => ⟨⟨0, 0, 0⟩, 0⟩).IntersectsBox
      ⟨⟨0, 0, 0⟩, ⟨0, 0, 0⟩⟩ = true := by
    refine frustum_culling_is_conservative.1 _ _ ⟨0, 0, 0⟩ h1 ?_
    intro i
    norm_num
  have hmem : (SceneNode.mk Identity (some ⟨[], []⟩) (some NewPBRMaterial) true []) ∈
      (Scene.mk (SceneNode.mk Identity (some ⟨[], []⟩) (some NewPBRMaterial) true [])
        [] (some ⟨⟨0, 0, 5⟩, ⟨0, 0, 0⟩, ⟨0, 1, 0⟩, 1, 1, 0.1, 100,
          .OrthographicProjection, 2⟩)).RootNode.GetRenderableNodes := by
    simp [SceneNode.GetRenderableNodes, renderableList, SceneNode.mesh,
      SceneNode.material, SceneNode.visible]
  have hcont : ((SceneNode.mk Identity (some ⟨[], []⟩) (some NewPBRMaterial)
      true []).worldTransform.MulBox (Mesh.mk [] []).BoundingBox).Contains
      ⟨0, 0, 0⟩ := by
    norm_num [SceneNode.worldTransform, Identity, Matrix.MulBox, Mesh.BoundingBox,
      EmptyBox, Box.Contains, Vector.MulScalar, Vector.Min, Vector.Max, Vector.Add,
      NewSIMDVector4FromVector, SIMDVector4.MulScalar, SIMDVector4.Min,
      SIMDVector4.Max, SIMDVector4.Add, SIMDVector4.ToVector, List.foldl]
  have hplanes : ∀ i : Fin 6,
      0 ≤ (Vector.mk 0 0 0).X * ((NewViewFrustumFromMatrix
            ((Camera.mk ⟨0, 0, 5⟩ ⟨0, 0, 0⟩ ⟨0, 1, 0⟩ 1 1 0.1 100
                .OrthographicProjection 2).GetProjectionMatrix.Mul
              (Camera.mk ⟨0, 0, 5⟩ ⟨0, 0, 0⟩ ⟨0, 1, 0⟩ 1 1 0.1 100
                .OrthographicProjection 2).GetViewMatrix)).Planes i).Normal.X +
          (Vector.mk 0 0 0).Y * ((NewViewFrustumFromMatrix
            ((Camera.mk ⟨0, 0, 5⟩ ⟨0, 0, 0⟩ ⟨0, 1, 0⟩ 1 1 0.1 100
                .OrthographicProjection 2).GetProjectionMatrix.Mul
              (Camera.mk ⟨0, 0, 5⟩ ⟨0, 0, 0⟩ ⟨0, 1, 0⟩ 1 1 0.1 100
                .OrthographicProjection 2).GetViewMatrix)).Planes i).Normal.Y +
          (Vector.mk 0 0 0).Z * ((NewViewFrustumFromMatrix
            ((Camera.mk ⟨0, 0, 5⟩ ⟨0, 0, 0⟩ ⟨0, 1, 0⟩ 1 1 0.1 100
                .OrthographicProjection 2).GetProjectionMatrix.Mul
              (Camera.mk ⟨0, 0, 5⟩ ⟨0, 0, 0⟩ ⟨0, 1, 0⟩ 1 1 0.1 100
                .OrthographicProjection 2).GetViewMatrix)).Planes i).Normal.Z +
          ((NewViewFrustumFromMatrix
            ((Camera.mk ⟨0, 0, 5⟩ ⟨0, 0, 0⟩ ⟨0, 1, 0⟩ 1 1 0.1 100
                .OrthographicProjection 2).GetProjectionMatrix.Mul
              (Camera.mk ⟨0, 0, 5⟩ ⟨0, 0, 0⟩ ⟨0, 1, 0⟩ 1 1 0.1 100
                .OrthographicProjection 2).GetViewMatrix)).Planes i).Distance := by
    intro i
    fin_cases i <;>
    · simp only [NewViewFrustumFromMatrix, Camera.GetProjectionMatrix,
        Camera.GetViewMatrix, Orthographic, LookAt, Matrix.Mul, Vector.Length,
        Vector.DivScalar, NewSIMDVector4FromVector, SIMDVector4.Length]
      norm_num
      try positivity
  have hfull := frustum_culling_is_conservative.2
    (Scene.mk (SceneNode.mk Identity (some ⟨[], []⟩) (some NewPBRMaterial) true [])
      [] (some ⟨⟨0, 0, 5⟩, ⟨0, 0, 0⟩, ⟨0, 1, 0⟩, 1, 1, 0.1, 100,
        .OrthographicProjection, 2⟩))
    ⟨⟨0, 0, 5⟩, ⟨0, 0, 0⟩, ⟨0, 1, 0⟩, 1, 1, 0.1, 100, .OrthographicProjection, 2⟩
    (SceneNode.mk Identity (some ⟨[], []⟩) (some NewPBRMaterial) true [])
    ⟨[], []⟩ NewPBRMaterial ⟨0, 0, 0⟩ rfl hmem rfl rfl hcont hplanes
  exact ⟨h1, h2, hfull.1, hfull.2⟩

end

end Fauxgl
